import Mathlib

/-!
Shallow embedding of the smart-parking-app repository (TypeScript/Next.js).

Numbers that are decimal literals in the source are modelled as exact
rationals (`ℚ`); JSON string fields are `String`; fields that may be
absent from a parsed JSON body are `Option String`, with JavaScript
truthiness (`!x`) modelled by `falsy`.  A request handler is a pure
function from the parsed request (with `none` standing for a body whose
parsing threw, which lands in the handler's `catch`) to its JSON
response paired with the list of external effects (SQL statements,
third-party calls) the handler performs on that path; effects are
recorded in source order and are modelled as succeeding.
-/

namespace SmartParking

/-- JavaScript truthiness test `!x` for an optional string field:
a field is falsy when absent (`undefined`) or the empty string. -/
def falsy : Option String → Bool
  | none => true
  | some s => s = ""

/-- The `scores` object attached to each recommendation
(`src/app/api/predict-availability/route.ts`). -/
structure Scores where
  availability : ℚ
  distance : ℚ
  traffic : ℚ
  price : ℚ
  final : ℚ
  deriving DecidableEq, Repr

/-- One parking-spot recommendation object, as built in
`src/app/api/predict-availability/route.ts`. -/
structure Recommendation where
  spot_id : ℕ
  name : String
  latitude : ℚ
  longitude : ℚ
  availability_probability : ℚ
  distance_km : ℚ
  traffic_level : String
  price_per_hour : ℚ
  available_slots : ℕ
  total_slots : ℕ
  confidence : ℕ
  scores : Scores
  deriving DecidableEq, Repr

/-- The fixed `mockRecommendations` array of
`src/app/api/predict-availability/route.ts`, lines 12-93, verbatim. -/
def mockRecommendations : List Recommendation :=
  [ { spot_id := 1
      name := "Central Garage"
      latitude := 40.7128
      longitude := -74.006
      availability_probability := 0.78
      distance_km := 0.3
      traffic_level := "Low"
      price_per_hour := 5.5
      available_slots := 45
      total_slots := 200
      confidence := 92
      scores :=
        { availability := 0.78, distance := 0.95, traffic := 0.9
          price := 0.7, final := 0.83 } }
  , { spot_id := 2
      name := "Downtown Lot"
      latitude := 40.7138
      longitude := -74.0015
      availability_probability := 0.65
      distance_km := 0.6
      traffic_level := "Medium"
      price_per_hour := 4.0
      available_slots := 12
      total_slots := 85
      confidence := 88
      scores :=
        { availability := 0.65, distance := 0.85, traffic := 0.7
          price := 0.8, final := 0.75 } }
  , { spot_id := 3
      name := "Commerce Street Garage"
      latitude := 40.7148
      longitude := -74.0025
      availability_probability := 0.85
      distance_km := 0.9
      traffic_level := "Low"
      price_per_hour := 3.5
      available_slots := 78
      total_slots := 250
      confidence := 85
      scores :=
        { availability := 0.85, distance := 0.75, traffic := 0.9
          price := 0.85, final := 0.84 } }
  , { spot_id := 4
      name := "Riverside Parking"
      latitude := 40.7158
      longitude := -74.0035
      availability_probability := 0.92
      distance_km := 1.2
      traffic_level := "Low"
      price_per_hour := 2.75
      available_slots := 156
      total_slots := 400
      confidence := 82
      scores :=
        { availability := 0.92, distance := 0.65, traffic := 0.88
          price := 0.9, final := 0.81 } }
  ]

/-- The scoring formula documented in `src/README.md`
("Recommendation Algorithm"):
Score = 0.4 x Availability + 0.3 x Distance + 0.2 x Traffic + 0.1 x Price. -/
def documentedScore (s : Scores) : ℚ :=
  0.4 * s.availability + 0.3 * s.distance + 0.2 * s.traffic + 0.1 * s.price

/-- An external effect performed by a request handler. -/
inductive Effect where
  | sqlInsert (table : String)
  | sqlSelect (table : String)
  | thirdPartyCall (provider : String)
  deriving DecidableEq, Repr

/-- The tables created by the parking-automation SQL schema (the
create-tables script of the automation system, which defines the
tables the API routes insert into). -/
def schemaTables : List String :=
  [ "vehicles", "parking_lots", "parking_assignments"
  , "sms_notifications", "plate_recognition_logs", "printer_jobs" ]

/-- Parsed JSON body of a POST /api/predict-availability request:
only the `address` field is read by the handler. -/
structure PredictRequest where
  address : Option String
  deriving DecidableEq, Repr

/-- Response of POST /api/predict-availability: HTTP status together
with the JSON payload fields the handler writes on each branch. -/
inductive PredictResponse where
  | badRequest (error : String)
  | ok (recommendations : List Recommendation) (address : String) (timestamp : String)
  | serverError (error : String)
  deriving DecidableEq, Repr

/-- HTTP status code carried by each `PredictResponse` constructor. -/
def PredictResponse.status : PredictResponse → ℕ
  | .badRequest _ => 400
  | .ok _ _ _ => 200
  | .serverError _ => 500

/-- A response whose status is 4xx or 5xx. -/
def PredictResponse.isError (r : PredictResponse) : Bool :=
  400 ≤ r.status

/-- The POST handler of `src/app/api/predict-availability/route.ts`.
`req = none` models `request.json()` throwing, which is caught by the
single try/catch; `timestamp` models `new Date().toISOString()`. -/
def predictAvailabilityPOST (req : Option PredictRequest) (timestamp : String) :
    PredictResponse × List Effect :=
  match req with
  | none => (.serverError "Failed to fetch recommendations", [])
  | some r =>
    if falsy r.address then
      (.badRequest "Address is required", [])
    else
      (.ok mockRecommendations (r.address.getD "") timestamp, [])

/-- Parsed JSON body of a POST /api/send-parking-sms request
(`SMSPayload` in `src/app/api/send-parking-sms/route.ts`); string
fields may be absent at runtime. -/
structure SMSPayload where
  phoneNumber : Option String
  plateNumber : Option String
  lotName : Option String
  assignedSlot : Option String
  tokenNumber : Option String
  estimatedCost : ℚ
  distanceKm : ℚ
  deriving DecidableEq, Repr

/-- Response of POST /api/send-parking-sms. -/
inductive SmsResponse where
  | badRequest (error : String)
  | ok (success : Bool) (message : String) (token : String) (timestamp : String)
  | serverError (error : String)
  deriving DecidableEq, Repr

/-- The POST handler of `src/app/api/send-parking-sms/route.ts`:
validates the four required fields, inserts a row into
`sms_notifications`, and returns the mock success response.  No
third-party messaging call is made ("In production, this would call
Twilio API"). -/
def sendParkingSmsPOST (req : Option SMSPayload) (timestamp : String) :
    SmsResponse × List Effect :=
  match req with
  | none => (.serverError "Failed to send SMS notification", [])
  | some p =>
    if falsy p.phoneNumber || falsy p.plateNumber || falsy p.lotName
        || falsy p.tokenNumber then
      (.badRequest "Missing required fields", [])
    else
      (.ok true "SMS notification sent successfully" (p.tokenNumber.getD "") timestamp,
        [.sqlInsert "sms_notifications"])

/-- The OCR stub of the plate-recognition route: "For now, return a
mock plate number". -/
def recognizePlateNumber (base64Image : String) : Option String :=
  some "DL01AB1234"

/-- Response of the plate-recognition POST endpoint. -/
inductive PlateResponse where
  | badRequest (error : String)
  | ok (success : Bool) (plateNumber : String) (timestamp : String)
  | serverError (error : String)
  deriving DecidableEq, Repr

/-- The plate-recognition POST handler.  The outer `Option` models
`request.formData()` (or the buffer conversion) throwing into the
catch; the inner `Option String` is the `image` form field as a base64
string, `none` when absent. -/
def recognizePlatePOST (form : Option (Option String)) (timestamp : String) :
    PlateResponse × List Effect :=
  match form with
  | none => (.serverError "Failed to recognize plate number", [])
  | some imageFile =>
    match imageFile with
    | none => (.badRequest "No image file provided", [])
    | some img =>
      match recognizePlateNumber img with
      | none => (.badRequest "Unable to recognize plate number", [])
      | some plate =>
        (.ok true plate timestamp, [.sqlInsert "plate_recognition_logs"])

/-- Parsed JSON body of a POST /api/print-parking-token request
(`PrintTokenPayload`). -/
structure PrintTokenPayload where
  tokenNumber : Option String
  plateNumber : Option String
  lotName : Option String
  slotNumber : Option String
  entryTime : Option String
  estimatedExitTime : Option String
  estimatedCost : ℚ
  deriving DecidableEq, Repr

/-- Response of POST /api/print-parking-token. -/
inductive PrintResponse where
  | badRequest (error : String)
  | ok (success : Bool) (message : String) (tokenNumber : String)
      (jobId : String) (timestamp : String)
  | serverError (error : String)
  deriving DecidableEq, Repr

/-- The print-parking-token POST handler: validates three required
fields, inserts a row into `printer_jobs`, simulates the print job.
`jobSuffix` models the `Date.now()` used in the job id. -/
def printParkingTokenPOST (req : Option PrintTokenPayload)
    (timestamp jobSuffix : String) : PrintResponse × List Effect :=
  match req with
  | none => (.serverError "Failed to create print job", [])
  | some p =>
    if falsy p.tokenNumber || falsy p.plateNumber || falsy p.lotName then
      (.badRequest "Missing required fields", [])
    else
      (.ok true "Print job sent to thermal printer" (p.tokenNumber.getD "")
          ("PRINT_" ++ p.tokenNumber.getD "" ++ "_" ++ jobSuffix) timestamp,
        [.sqlInsert "printer_jobs"])

/-- Response of GET /api/print-parking-token. -/
inductive PrintStatusResponse where
  | badRequest (error : String)
  | notFound (error : String)
  | ok (success : Bool) (job : String)
  | serverError (error : String)
  deriving DecidableEq, Repr

/-- The print-parking-token GET handler: reads the `token` query
parameter (`none` models a missing parameter; the empty string is
falsy too), then SELECTs the latest matching row of `printer_jobs`;
`jobs` is the row list that query returns, so the SELECT effect occurs
exactly when the token check passes.  The catch branch (status 500,
"Failed to retrieve print job status") is entered only when the
database call fails, which the effect model assumes away. -/
def printParkingTokenGET (tokenParam : Option String) (jobs : List String) :
    PrintStatusResponse × List Effect :=
  if falsy tokenParam then
    (.badRequest "Token number required", [])
  else
    match jobs with
    | [] => (.notFound "Print job not found", [.sqlSelect "printer_jobs"])
    | j :: _ => (.ok true j, [.sqlSelect "printer_jobs"])

/-- The `Stage` union type of `src/app/automated-parking/page.tsx`,
line 22: the named states of the automated-parking page's flow. -/
inductive Stage where
  | idle
  | capturing
  | recognizing
  | assigning
  | success
  | error
  deriving DecidableEq, Repr

/-- The `setStage` transitions of `src/app/automated-parking/page.tsx`,
as a step relation on `Stage`: Start button (idle to capturing, line
236), camera close (capturing to idle, line 253), plate detected
(capturing to recognizing, line 35), `assignParking` entry
(recognizing to assigning, line 46), assignment success (line 91) and
failure (line 98), reset from success (line 298), and Try Again /
Start Over from error (lines 317 and 322). -/
def stageStep : Stage → Stage → Bool
  | .idle, .capturing => true
  | .capturing, .idle => true
  | .capturing, .recognizing => true
  | .recognizing, .assigning => true
  | .assigning, .success => true
  | .assigning, .error => true
  | .success, .idle => true
  | .error, .capturing => true
  | .error, .idle => true
  | _, _ => false

/-- The `ParkingAssignment` object built by the automated-parking
page. -/
structure ParkingAssignment where
  tokenNumber : String
  plateNumber : String
  lotName : String
  assignedSlot : String
  distance_km : ℚ
  estimated_cost : ℚ
  duration_minutes : ℕ
  confidence_score : ℕ
  deriving DecidableEq, Repr

/-- `generateToken` of `src/app/automated-parking/page.tsx`, line 358;
`timestamp36` models `Date.now().toString(36).toUpperCase()`. -/
def generateToken (plateNumber : String) (lotId : ℕ) (timestamp36 : String) :
    String :=
  "PKG" ++ toString lotId ++ (plateNumber.takeRight 4).toUpper ++ timestamp36

/-- The assignment object built by `assignParking` (page.tsx lines
72-81) from the selected lot; `lot.confidence || 85` is the JS
default for a falsy (zero/absent) confidence. -/
def buildAssignment (plate : String) (lot : Recommendation)
    (timestamp36 : String) : ParkingAssignment :=
  { tokenNumber := generateToken plate lot.spot_id timestamp36
    plateNumber := plate
    lotName := lot.name
    assignedSlot := toString lot.spot_id ++ "-A1"
    distance_km := lot.distance_km
    estimated_cost := lot.price_per_hour * 2
    duration_minutes := 120
    confidence_score := if lot.confidence = 0 then 85 else lot.confidence }

/-- The assignment step of `assignParking`: the first recommendation
is selected when the list is non-empty; an empty list throws
"No parking available" (modelled as `none`). -/
def assignParking (plate : String) (recommendations : List Recommendation)
    (timestamp36 : String) : Option ParkingAssignment :=
  match recommendations with
  | [] => none
  | lot :: _ => some (buildAssignment plate lot timestamp36)

/-- `q` lies in the unit interval. -/
def inUnitInterval (q : ℚ) : Bool :=
  0 ≤ q && q ≤ 1

/-- The data invariant claimed for each recommendation object. -/
def recommendationInvariant (r : Recommendation) : Bool :=
  inUnitInterval r.availability_probability
    && 0 < r.available_slots
    && r.available_slots ≤ r.total_slots
    && inUnitInterval r.scores.availability
    && inUnitInterval r.scores.distance
    && inUnitInterval r.scores.traffic
    && inUnitInterval r.scores.price
    && inUnitInterval r.scores.final

theorem predict_ok_recs (req : Option PredictRequest) (ts : String)
    (recs : List Recommendation) (addr ts2 : String) (es : List Effect)
    (h : predictAvailabilityPOST req ts = (.ok recs addr ts2, es)) :
    recs = mockRecommendations := by
  rcases req with _ | r
  · exact absurd h (by simp [predictAvailabilityPOST])
  · by_cases hf : falsy r.address = true
    · simp [predictAvailabilityPOST, hf] at h
    · simp only [predictAvailabilityPOST, hf, Bool.false_eq_true, if_false,
        Prod.mk.injEq, PredictResponse.ok.injEq] at h
      exact h.1.1.symm

/-- C1: every recommendation object the endpoint returns carries a
hard-coded `scores.final` (0.83, 0.75, 0.84, 0.81) that differs from
the scoring formula documented in `src/README.md`
(0.4 x availability + 0.3 x distance + 0.2 x traffic + 0.1 x price,
which yields 0.847, 0.735, 0.83, 0.829); the code contradicts its own
documentation on all four spots. -/
theorem finalScore_ne_documentedScore :
    (mockRecommendations.map fun r => r.scores.final) = [0.83, 0.75, 0.84, 0.81]
    ∧ (mockRecommendations.map fun r => documentedScore r.scores)
        = [0.847, 0.735, 0.83, 0.829]
    ∧ ¬ ∃ r ∈ mockRecommendations, r.scores.final = documentedScore r.scores := by
  refine ⟨?_, ?_, ?_⟩ <;> norm_num [mockRecommendations, documentedScore]

/-- C2: the recommendation data is canned: any two requests whose
address fields are present and non-empty both receive the same fixed
four-spot list `mockRecommendations`, in the same order; only the
echoed address and the timestamp differ. -/
theorem predict_recommendations_canned (a₁ a₂ t₁ t₂ : String)
    (h₁ : a₁ ≠ "") (h₂ : a₂ ≠ "") :
    predictAvailabilityPOST (some { address := some a₁ }) t₁
      = (.ok mockRecommendations a₁ t₁, [])
    ∧ predictAvailabilityPOST (some { address := some a₂ }) t₂
      = (.ok mockRecommendations a₂ t₂, []) := by
  constructor <;> simp [predictAvailabilityPOST, falsy, h₁, h₂]

/-- Witness for C2 at two concrete addresses. -/
theorem predict_recommendations_canned_witness :
    predictAvailabilityPOST (some { address := some "10 Downing St" }) "t1"
      = (.ok mockRecommendations "10 Downing St" "t1", [])
    ∧ predictAvailabilityPOST (some { address := some "Times Square" }) "t2"
      = (.ok mockRecommendations "Times Square" "t2", []) :=
  predict_recommendations_canned "10 Downing St" "Times Square" "t1" "t2"
    (by decide) (by decide)

/-- C3 counterexample: the handler has an error response that is not
the status-500 catch response: a body whose address is absent yields
the status-400 response with error "Address is required". -/
theorem predict_error_not_only_500 :
    (predictAvailabilityPOST (some { address := none }) "t").1
        = .badRequest "Address is required"
    ∧ (PredictResponse.badRequest "Address is required").isError = true
    ∧ (PredictResponse.badRequest "Address is required").status ≠ 500 := by
  refine ⟨rfl, rfl, by decide⟩

/-- C3 (amended): the handler has exactly two failure branches: the
status-400 "Address is required" validation branch and the single
try/catch's status-500 "Failed to fetch recommendations" branch; every
error response is one of these two. -/
theorem predict_error_responses_characterized (req : Option PredictRequest)
    (ts : String) (h : (predictAvailabilityPOST req ts).1.isError = true) :
    (predictAvailabilityPOST req ts).1 = .badRequest "Address is required"
    ∨ (predictAvailabilityPOST req ts).1
        = .serverError "Failed to fetch recommendations" := by
  rcases req with _ | r
  · exact Or.inr rfl
  · by_cases hf : falsy r.address = true
    · exact Or.inl (by simp [predictAvailabilityPOST, hf])
    · exact absurd h (by
        simp [predictAvailabilityPOST, hf, PredictResponse.isError,
          PredictResponse.status])

/-- Witness for C3's amended theorem at a missing address. -/
theorem predict_error_responses_characterized_witness :
    (predictAvailabilityPOST (some { address := none }) "t").1
        = PredictResponse.badRequest "Address is required"
    ∨ (predictAvailabilityPOST (some { address := none }) "t").1
        = PredictResponse.serverError "Failed to fetch recommendations" :=
  predict_error_responses_characterized (some { address := none }) "t" (by decide)

/-- C4: the OCR stub returns the constant plate "DL01AB1234" (never
`none`) for every image, the endpoint reports that same plate for
every uploaded image, and the status-400 branch with error "Unable to
recognize plate number" is unreachable. -/
theorem recognizePlate_constant_stub :
    (∀ img : String, recognizePlateNumber img = some "DL01AB1234")
    ∧ (∀ img ts : String,
        (recognizePlatePOST (some (some img)) ts).1 = .ok true "DL01AB1234" ts)
    ∧ (∀ (form : Option (Option String)) (ts : String),
        (recognizePlatePOST form ts).1
          ≠ .badRequest "Unable to recognize plate number") := by
  refine ⟨fun img => rfl, fun img ts => rfl, fun form ts => ?_⟩
  rcases form with _ | (_ | img) <;>
    simp [recognizePlatePOST, recognizePlateNumber]

/-- C5 counterexample: a request handler does execute SQL: on a fully
populated payload the send-parking-sms handler performs an INSERT into
`sms_notifications`, a table defined by the SQL schema. -/
theorem sms_handler_executes_sql :
    (sendParkingSmsPOST
        (some { phoneNumber := some "+1234567890", plateNumber := some "DL01AB1234"
                lotName := some "Central Garage", assignedSlot := some "1-A1"
                tokenNumber := some "PKG1AB1234T0", estimatedCost := 11
                distanceKm := 0.3 })
        "t").2 = [Effect.sqlInsert "sms_notifications"]
    ∧ "sms_notifications" ∈ schemaTables := by
  exact ⟨rfl, by simp [schemaTables]⟩

/-- C5 (amended): the predict-availability handler executes no SQL on
any path; the send-parking-sms, plate-recognition and
print-parking-token POST handlers perform exactly one INSERT into a
table defined by the SQL schema (`sms_notifications`,
`plate_recognition_logs`, `printer_jobs` respectively) exactly when
their input validation passes, and no SQL otherwise; and the print
route's GET handler performs exactly one SELECT on `printer_jobs`
exactly when a non-empty token query parameter is present. -/
theorem handlers_sql_effects :
    (∀ (req : Option PredictRequest) (ts : String),
        (predictAvailabilityPOST req ts).2 = [])
    ∧ (∀ (req : Option SMSPayload) (ts : String),
        (sendParkingSmsPOST req ts).2 =
          match req with
          | none => []
          | some p =>
            if falsy p.phoneNumber || falsy p.plateNumber || falsy p.lotName
                || falsy p.tokenNumber then []
            else [Effect.sqlInsert "sms_notifications"])
    ∧ (∀ (form : Option (Option String)) (ts : String),
        (recognizePlatePOST form ts).2 =
          match form with
          | some (some _) => [Effect.sqlInsert "plate_recognition_logs"]
          | _ => [])
    ∧ (∀ (req : Option PrintTokenPayload) (ts js : String),
        (printParkingTokenPOST req ts js).2 =
          match req with
          | none => []
          | some p =>
            if falsy p.tokenNumber || falsy p.plateNumber || falsy p.lotName then []
            else [Effect.sqlInsert "printer_jobs"])
    ∧ (∀ (tokenParam : Option String) (jobs : List String),
        (printParkingTokenGET tokenParam jobs).2 =
          if falsy tokenParam then [] else [Effect.sqlSelect "printer_jobs"])
    ∧ "sms_notifications" ∈ schemaTables
    ∧ "plate_recognition_logs" ∈ schemaTables
    ∧ "printer_jobs" ∈ schemaTables := by
  refine ⟨fun req ts => ?_, fun req ts => ?_, fun form ts => ?_,
    fun req ts js => ?_, fun tokenParam jobs => ?_, by simp [schemaTables],
    by simp [schemaTables], by simp [schemaTables]⟩
  · rcases req with _ | r
    · rfl
    · by_cases hf : falsy r.address = true <;> simp [predictAvailabilityPOST, hf]
  · rcases req with _ | p
    · rfl
    · by_cases hv : (falsy p.phoneNumber || falsy p.plateNumber || falsy p.lotName
          || falsy p.tokenNumber) = true <;> simp [sendParkingSmsPOST, hv]
  · rcases form with _ | (_ | img) <;> rfl
  · rcases req with _ | p
    · rfl
    · by_cases hv : (falsy p.tokenNumber || falsy p.plateNumber
          || falsy p.lotName) = true <;> simp [printParkingTokenPOST, hv]
  · by_cases hf : falsy tokenParam = true
    · simp [printParkingTokenGET, hf]
    · rcases jobs with _ | ⟨j, rest⟩ <;> simp [printParkingTokenGET, hf]

/-- C6: the SMS endpoint returns the status-400 "Missing required
fields" response exactly when one of the four required fields is
absent or empty; otherwise it returns the mock success response
(success true, the documented message, token equal to the payload's
tokenNumber), and on no path does it call a third-party messaging
provider. -/
theorem sms_validation_and_mock_success (p : SMSPayload) (ts : String) :
    ((sendParkingSmsPOST (some p) ts).1 = .badRequest "Missing required fields"
      ↔ (falsy p.phoneNumber || falsy p.plateNumber || falsy p.lotName
          || falsy p.tokenNumber) = true)
    ∧ ((falsy p.phoneNumber || falsy p.plateNumber || falsy p.lotName
          || falsy p.tokenNumber) = false →
        sendParkingSmsPOST (some p) ts
          = (.ok true "SMS notification sent successfully" (p.tokenNumber.getD "") ts,
              [Effect.sqlInsert "sms_notifications"]))
    ∧ ∀ provider, Effect.thirdPartyCall provider ∉ (sendParkingSmsPOST (some p) ts).2 := by
  by_cases hv : (falsy p.phoneNumber || falsy p.plateNumber || falsy p.lotName
      || falsy p.tokenNumber) = true
  · exact ⟨by simp [sendParkingSmsPOST, hv], by simp [hv],
      fun provider => by simp [sendParkingSmsPOST, hv]⟩
  · rw [Bool.not_eq_true] at hv
    exact ⟨by simp [sendParkingSmsPOST, hv], fun _ => by simp [sendParkingSmsPOST, hv],
      fun provider => by simp [sendParkingSmsPOST, hv]⟩

/-- Witness for C6 on a fully populated payload. -/
theorem sms_validation_and_mock_success_witness :
    sendParkingSmsPOST
        (some { phoneNumber := some "+19998887777", plateNumber := some "KA01AB0001"
                lotName := some "Downtown Lot", assignedSlot := some "2-A1"
                tokenNumber := some "PKG2AB0001T1", estimatedCost := 8
                distanceKm := 0.6 })
        "t2"
      = (.ok true "SMS notification sent successfully" "PKG2AB0001T1" "t2",
          [Effect.sqlInsert "sms_notifications"]) :=
  (sms_validation_and_mock_success _ "t2").2.1 (by decide)

/-- C7 counterexample: the automated-parking page's behaviour is
organised as a set of named states (the `Stage` union) with a guarded
step relation: idle steps to capturing, assigning steps to success or
error, while idle cannot step directly to success. -/
theorem automated_parking_state_machine_exists :
    stageStep Stage.idle Stage.capturing = true
    ∧ stageStep Stage.assigning Stage.success = true
    ∧ stageStep Stage.assigning Stage.error = true
    ∧ stageStep Stage.idle Stage.success = false
    ∧ Stage.idle ≠ Stage.capturing := by decide

/-- C7 (amended): the program has no network-protocol state machine,
but the automated-parking page is organised as a six-named-state
machine whose step relation holds on exactly the nine transitions
wired through `setStage`. -/
theorem stageStep_characterized (s t : Stage) :
    stageStep s t = true ↔
      (s, t) ∈ ([ (.idle, .capturing), (.capturing, .idle)
                , (.capturing, .recognizing), (.recognizing, .assigning)
                , (.assigning, .success), (.assigning, .error)
                , (.success, .idle), (.error, .capturing), (.error, .idle) ]
          : List (Stage × Stage)) := by
  cases s <;> cases t <;> decide

/-- C8: on every success response of POST /api/predict-availability,
each returned recommendation satisfies the data invariant: the
availability probability and all five scores lie in [0, 1], and
0 < available_slots <= total_slots. -/
theorem predict_recommendation_invariant (req : Option PredictRequest)
    (ts : String) (recs : List Recommendation) (addr ts2 : String)
    (es : List Effect)
    (h : predictAvailabilityPOST req ts = (.ok recs addr ts2, es)) :
    recs.all recommendationInvariant = true := by
  rw [predict_ok_recs req ts recs addr ts2 es h]
  simp only [mockRecommendations, recommendationInvariant, inUnitInterval,
    List.all_cons, List.all_nil, Bool.and_true, Bool.and_eq_true,
    decide_eq_true_eq]
  norm_num

/-- Witness for C8 at a concrete request. -/
theorem predict_recommendation_invariant_witness :
    mockRecommendations.all recommendationInvariant = true :=
  predict_recommendation_invariant (some { address := some "5th Avenue" }) "t"
    mockRecommendations "5th Avenue" "t" [] rfl

/-- C9: every successful assignment built from a non-empty
recommendations list selects the first lot, charges exactly two hours
(estimated_cost = 2 x price_per_hour) and sets duration_minutes to
120, regardless of the plate or the lot. -/
theorem assignParking_cost_and_duration (plate ts36 : String)
    (lot : Recommendation) (rest : List Recommendation) :
    ∃ a, assignParking plate (lot :: rest) ts36 = some a
      ∧ a.estimated_cost = 2 * lot.price_per_hour
      ∧ a.duration_minutes = 120 :=
  ⟨buildAssignment plate lot ts36, rfl, mul_comm _ _, rfl⟩

/-- C10: on every success response of POST /api/predict-availability,
the recommendations are strictly increasing in distance_km, nearest
first: 0.3, 0.6, 0.9, 1.2 km. -/
theorem predict_distances_strictly_increasing (req : Option PredictRequest)
    (ts : String) (recs : List Recommendation) (addr ts2 : String)
    (es : List Effect)
    (h : predictAvailabilityPOST req ts = (.ok recs addr ts2, es)) :
    recs.map Recommendation.distance_km = [0.3, 0.6, 0.9, 1.2]
    ∧ List.Pairwise (· < ·) (recs.map Recommendation.distance_km) := by
  rw [predict_ok_recs req ts recs addr ts2 es h]
  refine ⟨?_, ?_⟩ <;> norm_num [mockRecommendations, List.pairwise_cons]

/-- Witness for C10 at a concrete request. -/
theorem predict_distances_strictly_increasing_witness :
    mockRecommendations.map Recommendation.distance_km = [0.3, 0.6, 0.9, 1.2]
    ∧ List.Pairwise (· < ·) (mockRecommendations.map Recommendation.distance_km) :=
  predict_distances_strictly_increasing (some { address := some "Wall Street" })
    "t" mockRecommendations "Wall Street" "t" [] rfl

end SmartParking
